import Mathlib

/-!
# Verification of the Wormhole transfer orchestration of move-agent-kit

Shallow embedding of `src/tools/wormhole/cctp.ts`, `wrappedToken.ts` and
`tokenTransfer.ts`.  Each remote interaction (SDK initialisation, chain
context retrieval, signer resolution, transaction submission, attestation
fetch, wrapped-asset lookup) is driven by an oracle that supplies the
outcome (`Except String α`, mirroring a JS promise that either resolves
or rejects with an error message).  Running a function yields its returned
result value together with a trace of the remote actions it performed, in
program order.  Control flow (try/catch, retry loops, polling loops,
short-circuits) is translated statement by statement from the source.
-/

namespace MoveAgentKit

/-- Remote actions performed by the wormhole tools, recorded in program
order.  Payloads are kept only where a property refers to them (the
base-unit amount handed to `circleTransfer`, poll indices, sleep
durations in milliseconds). -/
inductive Ev where
  | initSdk : Ev
  | getChain (chain : String) : Ev
  | getSigner (chain : String) : Ev
  | getTokenBridge (chain : String) : Ev
  | lookupWrapped : Ev
  | circleTransferCreate (amt : Nat) : Ev
  | tokenTransferCreate (amt : Nat) : Ev
  | quoteTransfer : Ev
  | initiateTransfer : Ev
  | fetchAttestation (timeoutMs : Nat) : Ev
  | completeTransfer : Ev
  | submitAttestCreateTx : Ev
  | parseTx : Ev
  | getVaa (timeoutMs : Nat) : Ev
  | submitAttestDest : Ev
  | pollWrappedLookup (i : Nat) : Ev
  | sleepMs (ms : ℚ) : Ev
deriving DecidableEq, Repr

/-- Number of occurrences of the event `c` in a trace. -/
def countEv (c : Ev) : List Ev → Nat
  | [] => 0
  | e :: l => (if e = c then 1 else 0) + countEv c l

/-- Number of events satisfying `p` in a trace. -/
def countEvP (p : Ev → Bool) : List Ev → Nat
  | [] => 0
  | e :: l => (if p e then 1 else 0) + countEvP p l

/-- Does `pat` occur as a leading segment of `l`? -/
def startsWithList : List Char → List Char → Bool
  | [], _ => true
  | _ :: _, [] => false
  | p :: ps, c :: cs => p == c && startsWithList ps cs

/-- Does `pat` occur as a contiguous segment of `l`? -/
def hasSegment (pat : List Char) : List Char → Bool
  | [] => pat.isEmpty
  | c :: cs => startsWithList pat (c :: cs) || hasSegment pat cs

/-- `errorMessage.includes(pat)` on JS strings: substring containment. -/
def strContains (s pat : String) : Bool :=
  hasSegment pat.toList s.toList

/-- The transient-error classification of `transferUsdcWithCctp`
(`cctp.ts` lines 151–157): an error message signals overload when it
contains one of the listed signatures. -/
def isOverloadedError (errorMessage : String) : Bool :=
  strContains errorMessage "Overloaded" ||
  strContains errorMessage "overloaded" ||
  strContains errorMessage "timeout" ||
  strContains errorMessage "rate limit" ||
  strContains errorMessage "429" ||
  strContains errorMessage "connection"

/-- Numeric value of a list of decimal digit characters. -/
def digitsVal (l : List Char) : Nat :=
  l.foldl (fun n c => n * 10 + (c.toNat - 48)) 0

/-- Modelled from the spec: the SDK helper `amount.parse(s, d)` followed by
`amount.units`, which the repository calls but does not define — it turns a
decimal string into base units at a fixed `d`-decimal precision, with no
implicit rounding (`none` on a malformed or too-precise string). -/
def parseBaseUnits (s : String) (d : Nat) : Option Nat :=
  let l := s.toList
  let whole := l.takeWhile (fun c => c != '.')
  let rest := l.dropWhile (fun c => c != '.')
  match rest with
  | [] =>
    if whole ≠ [] ∧ whole.all Char.isDigit then
      some (digitsVal whole * 10 ^ d)
    else none
  | _ :: frac =>
    if whole ≠ [] ∧ whole.all Char.isDigit ∧ frac ≠ [] ∧
        frac.all Char.isDigit ∧ frac.length ≤ d then
      some (digitsVal whole * 10 ^ d + digitsVal frac * 10 ^ (d - frac.length))
    else none

/-- Run a straight-line sequence of remote steps: each step is performed in
order and recorded in the trace; the first rejected step aborts the
sequence and its error message is reported (the JS `try` block
short-circuits to `catch`). -/
def runSteps : List (Ev × Except String Unit) → List Ev × Option String
  | [] => ([], none)
  | (ev, Except.error e) :: _ => ([ev], some e)
  | (ev, Except.ok _) :: rest =>
    let r := runSteps rest
    (ev :: r.1, r.2)

/-! ## `wrappedToken.ts` -/

/-- Outcomes of the three awaited calls inside `checkWrappedTokenExists`
(`wrappedToken.ts` lines 53–61): `whInstance.getChain(targetChain)`,
`targetChainCtx.getTokenBridge()` and
`tokenBridgeTarget.getWrappedAsset(tokenIdentifier)` (the last resolves to
the wrapped-token address or rejects, also when the token is simply not
wrapped). -/
structure LookupSteps where
  getChain : Except String Unit
  getTokenBridge : Except String Unit
  getWrappedAsset : Except String String

/-- `checkWrappedTokenExists` (`wrappedToken.ts` lines 47–66): the whole
body sits in a `try`; any rejection of any step is caught and turned into
`null`.  The model is therefore total: it returns an `Option`, never an
error. -/
def checkWrappedTokenExists (s : LookupSteps) : Option String :=
  match s.getChain with
  | Except.error _ => none
  | Except.ok _ =>
    match s.getTokenBridge with
    | Except.error _ => none
    | Except.ok _ =>
      match s.getWrappedAsset with
      | Except.error _ => none
      | Except.ok addr => some addr

/-- The polling loop pattern shared by `wrappedToken.ts` lines 169–182 and
`tokenTransfer.ts` lines 135–148:
`while (!artifact && attemptCount < max) { try { artifact = await lookup() }
catch { attemptCount++; await sleep(interval) } }`.
`left` is the number of loop iterations still permitted,
`max - attemptCount`; the loop guard `attemptCount < max` holds exactly
when `left > 0`.  `cnt` is the current `attemptCount`, which is also the
index of the lookup being performed, since the counter advances exactly
once per failed lookup. -/
def boundedPoll (lookup : Nat → Except String String) (mkEv : Nat → Ev)
    (intervalMs : ℚ) : Nat → Nat → List Ev × Option String
  | 0, _ => ([], none)
  | left + 1, cnt =>
    match lookup cnt with
    | Except.ok a => ([mkEv cnt], some a)
    | Except.error _ =>
      let r := boundedPoll lookup mkEv intervalMs left (cnt + 1)
      (mkEv cnt :: Ev.sleepMs intervalMs :: r.1, r.2)

/-- Outcomes of the remote calls of `createAptosWrappedToken`
(`wrappedToken.ts` lines 81–202), in program order.  `lookup` feeds the
initial `checkWrappedTokenExists` idempotency check; `signSendAttest`
resolves to `txResults[0].txid`; `parseTx` to the Wormhole messages of
that transaction; `getVaa` to the VAA or `null` on expiry of the 25-minute
window (it may also reject); `poll` to the wrapped-asset lookups of the
availability loop. -/
structure WrappedTokenOracle where
  initSdk : Except String Unit
  getOriginChain : Except String Unit
  getDestChain : Except String Unit
  lookup : LookupSteps
  getDestSigner : Except String Unit
  getOriginSigner : Except String Unit
  getTokenBridgeDest : Except String Unit
  getTokenBridgeOrigin : Except String Unit
  signSendAttest : Except String String
  parseTx : Except String (List String)
  getVaa : Except String (Option String)
  submitAttestDest : Except String Unit
  poll : Nat → Except String String

/-- `WrappedTokenRequest` (`types.ts`): destination chain, origin token
address on Aptos, optional network environment. -/
structure WrappedTokenRequest where
  targetChain : String
  originTokenAddress : String
  networkType : Option String
deriving DecidableEq, Repr

/-- `WrappedTokenResponse` (`wrappedToken.ts` lines 25–33): success
carries `wrappedTokenInfo` (chain and token address) and, when an
attestation was actually created, the attestation transaction hash;
failure carries only `errorMessage`. -/
inductive WrappedTokenResponse where
  | success (chainId : String) (tokenAddress : String)
      (attestTxHash : Option String) : WrappedTokenResponse
  | failure (errorMessage : String) : WrappedTokenResponse
deriving DecidableEq, Repr

/-- `createAptosWrappedToken` (`wrappedToken.ts` lines 81–202), translated
statement by statement.  The whole body sits in a `try` whose `catch`
returns `{ isSuccess: false, errorMessage }`, so the model is total.
Steps: SDK init, the two chain contexts, the `checkWrappedTokenExists`
short-circuit, signer resolution for both chains, the two token bridges,
the attestation-creation transaction (`signSendWait`), message extraction
(throwing when no message is found), the guardian VAA wait (throwing when
it returns `null`), attestation submission on the destination, and the
bounded availability poll (10 attempts, 2000 ms interval; exhaustion
throws). -/
def createAptosWrappedToken (req : WrappedTokenRequest)
    (o : WrappedTokenOracle) : WrappedTokenResponse × List Ev :=
  match o.initSdk with
  | Except.error e => (WrappedTokenResponse.failure e, [Ev.initSdk])
  | Except.ok _ =>
  match o.getOriginChain with
  | Except.error e =>
      (WrappedTokenResponse.failure e, [Ev.initSdk, Ev.getChain "Aptos"])
  | Except.ok _ =>
  match o.getDestChain with
  | Except.error e =>
      (WrappedTokenResponse.failure e,
        [Ev.initSdk, Ev.getChain "Aptos", Ev.getChain req.targetChain])
  | Except.ok _ =>
  let pre : List Ev :=
    [Ev.initSdk, Ev.getChain "Aptos", Ev.getChain req.targetChain,
      Ev.lookupWrapped]
  match checkWrappedTokenExists o.lookup with
  | some existing =>
      (WrappedTokenResponse.success req.targetChain existing none, pre)
  | none =>
  match runSteps
      [(Ev.getSigner req.targetChain, o.getDestSigner),
       (Ev.getSigner "Aptos", o.getOriginSigner),
       (Ev.getTokenBridge req.targetChain, o.getTokenBridgeDest),
       (Ev.getTokenBridge "Aptos", o.getTokenBridgeOrigin)] with
  | (evs, some e) => (WrappedTokenResponse.failure e, pre ++ evs)
  | (evs, none) =>
  let pre := pre ++ evs
  match o.signSendAttest with
  | Except.error e =>
      (WrappedTokenResponse.failure e, pre ++ [Ev.submitAttestCreateTx])
  | Except.ok primaryTxId =>
  let pre := pre ++ [Ev.submitAttestCreateTx]
  match o.parseTx with
  | Except.error e => (WrappedTokenResponse.failure e, pre ++ [Ev.parseTx])
  | Except.ok messages =>
  let pre := pre ++ [Ev.parseTx]
  if messages.isEmpty then
    (WrappedTokenResponse.failure
      "No Wormhole messages found in attestation transaction", pre)
  else
  match o.getVaa with
  | Except.error e =>
      (WrappedTokenResponse.failure e, pre ++ [Ev.getVaa 1500000])
  | Except.ok none =>
      (WrappedTokenResponse.failure
        "VAA not available after timeout period. Consider extending the timeout.",
        pre ++ [Ev.getVaa 1500000])
  | Except.ok (some _) =>
  let pre := pre ++ [Ev.getVaa 1500000]
  match o.submitAttestDest with
  | Except.error e =>
      (WrappedTokenResponse.failure e, pre ++ [Ev.submitAttestDest])
  | Except.ok _ =>
  let pre := pre ++ [Ev.submitAttestDest]
  let polled := boundedPoll o.poll Ev.pollWrappedLookup 2000 10 0
  match polled.2 with
  | none =>
      (WrappedTokenResponse.failure
        "Wrapped asset not available after maximum polling attempts",
        pre ++ polled.1)
  | some wrappedAsset =>
      (WrappedTokenResponse.success req.targetChain wrappedAsset
        (some primaryTxId), pre ++ polled.1)

/-! ## `cctp.ts` -/

/-- `AptosCctpTransferRequest` (`types.ts`): destination chain, transfer
amount as a decimal string, optional network environment (the source
defaults it to `"Mainnet"`). -/
structure CctpRequest where
  targetChain : String
  transferAmount : String
  networkType : Option String
deriving DecidableEq, Repr

/-- Outcomes of the remote calls of one iteration of the retry loop of
`transferUsdcWithCctp` (`cctp.ts` lines 46–145), in program order:
SDK init, the two chain contexts, the two signers, `circleTransfer`
creation, `CircleTransfer.quoteTransfer`, `initiateTransfer`,
`fetchAttestation` and `completeTransfer`. -/
structure CctpAttempt where
  initSdk : Except String Unit
  getSourceChain : Except String Unit
  getDestChain : Except String Unit
  getSourceSigner : Except String Unit
  getDestSigner : Except String Unit
  circleCreate : Except String Unit
  quote : Except String Unit
  initiate : Except String (List String)
  fetchAtt : Except String (List String)
  complete : Except String (List String)

/-- Discard the resolved value of a step, keeping only whether it
rejected. -/
def exUnit {α : Type} : Except String α → Except String Unit
  | Except.error e => Except.error e
  | Except.ok _ => Except.ok ()

/-- Resolved value of a step, defaulting to `[]`; used only after the
whole attempt is known to have resolved. -/
def exListD : Except String (List String) → List String
  | Except.error _ => []
  | Except.ok l => l

/-- The steps of one iteration of the `try` block of
`transferUsdcWithCctp`, with their trace events.  The base-unit amount
handed to `circleTransfer` is the hard-coded `const amt = 1_000_000n` of
`cctp.ts` line 80 — it does not depend on `request.transferAmount`.  The
attestation wait uses the 180 000 ms timeout of line 123. -/
def cctpAttemptSteps (targetChain : String) (a : CctpAttempt) :
    List (Ev × Except String Unit) :=
  [(Ev.initSdk, a.initSdk),
   (Ev.getChain "Aptos", a.getSourceChain),
   (Ev.getChain targetChain, a.getDestChain),
   (Ev.getSigner "Aptos", a.getSourceSigner),
   (Ev.getSigner targetChain, a.getDestSigner),
   (Ev.circleTransferCreate 1000000, a.circleCreate),
   (Ev.quoteTransfer, a.quote),
   (Ev.initiateTransfer, exUnit a.initiate),
   (Ev.fetchAttestation 180000, exUnit a.fetchAtt),
   (Ev.completeTransfer, exUnit a.complete)]

/-- Transaction-id lists of one attempt, in the order
(source transactions, attestation ids, destination transactions). -/
structure CctpAttemptData where
  sourceTxs : List String
  attIds : List String
  destTxs : List String
deriving DecidableEq, Repr

/-- Run one iteration of the `try` block: perform the steps in order; the
first rejection is the thrown error reaching the `catch`.  When every step
resolves, the resolved transaction-id lists are returned. -/
def runCctpAttempt (targetChain : String) (a : CctpAttempt) :
    List Ev × Except String CctpAttemptData :=
  match runSteps (cctpAttemptSteps targetChain a) with
  | (evs, some e) => (evs, Except.error e)
  | (evs, none) =>
    (evs, Except.ok ⟨exListD a.initiate, exListD a.fetchAtt, exListD a.complete⟩)

/-- The success object of `transferUsdcWithCctp` (`cctp.ts` lines
134–145); `status` is always `"Completed"`, `sourceChain` `"Aptos"`,
`automatic` `false`, `amount` echoes `request.transferAmount`. -/
structure CctpSuccess where
  sourceChain : String
  destinationChain : String
  amount : String
  sourceTransactions : List String
  attestationIds : List String
  destinationTransactions : List String
  automatic : Bool
  retryCount : Nat
deriving DecidableEq, Repr

/-- Return value of `transferUsdcWithCctp`: the success object, the
in-loop failure object `{ isSuccess: false, errorMessage, retryAttempts }`
(`cctp.ts` lines 161–165), or the post-loop fallback return
`{ isSuccess: false, errorMessage: "Max retries reached", retryAttempts }`
(lines 179–183).  Neither failure shape has any transaction-id field. -/
inductive CctpResult where
  | completed (s : CctpSuccess) : CctpResult
  | failed (errorMessage : String) (retryAttempts : Nat) : CctpResult
  | maxRetriesFallback (retryAttempts : Nat) : CctpResult
deriving DecidableEq, Repr

/-- `Math.min` on two rationals. -/
def ratMin (a b : ℚ) : ℚ := if a ≤ b then a else b

/-- The backoff computation of `cctp.ts` lines 170–171 for the already
incremented retry counter `newRetryCount`:
`Math.min(initialBackoff * 2 ** newRetryCount * (r * 0.3 + 0.85), 60000)`
where `r` is the `Math.random()` sample. -/
def cctpBackoff (initialBackoff : ℚ) (newRetryCount : Nat) (r : ℚ) : ℚ :=
  ratMin (initialBackoff * 2 ^ newRetryCount * (r * (3 / 10) + 17 / 20)) 60000

/-- The retry loop of `transferUsdcWithCctp` (`cctp.ts` lines 45–183).
`rc` is `retryCount`; `left` is the number of iterations the guard still
permits, `maxRetries + 1 - retryCount`, so the `while` guard
`retryCount <= maxRetries` holds exactly when `left > 0` and the
`left = 0` branch is the post-loop fallback return.  In the `catch`
(lines 146–175): a fatal or attempt-exhausted error returns the failure
object; otherwise the counter is incremented, the backoff for the new
counter is slept, and the loop re-enters — re-running every step of the
`try` block, including `initiateTransfer`. -/
def cctpGo (req : CctpRequest) (oracle : Nat → CctpAttempt) (rand : Nat → ℚ)
    (maxRetries : Nat) (initialBackoff : ℚ) :
    Nat → Nat → CctpResult × List Ev
  | 0, rc => (CctpResult.maxRetriesFallback rc, [])
  | left + 1, rc =>
    let attempt := runCctpAttempt req.targetChain (oracle rc)
    match attempt.2 with
    | Except.ok d =>
      (CctpResult.completed
        ⟨"Aptos", req.targetChain, req.transferAmount, d.sourceTxs, d.attIds,
          d.destTxs, false, rc⟩, attempt.1)
    | Except.error msg =>
      if maxRetries ≤ rc ∨ isOverloadedError msg = false then
        (CctpResult.failed msg rc, attempt.1)
      else
        let backoffTime := cctpBackoff initialBackoff (rc + 1) (rand rc)
        let r := cctpGo req oracle rand maxRetries initialBackoff left (rc + 1)
        (r.1, attempt.1 ++ Ev.sleepMs backoffTime :: r.2)

/-- `transferUsdcWithCctp` (`cctp.ts` lines 26–184): the retry loop
starting at `retryCount = 0`.  Defaults in the source: `maxRetries = 5`,
`initialBackoff = 2000`. -/
def transferUsdcWithCctp (req : CctpRequest) (oracle : Nat → CctpAttempt)
    (rand : Nat → ℚ) (maxRetries : Nat) (initialBackoff : ℚ) :
    CctpResult × List Ev :=
  cctpGo req oracle rand maxRetries initialBackoff (maxRetries + 1) 0

/-- Retry counter reported by a `transferUsdcWithCctp` result
(`retryCount` on success, `retryAttempts` on failure). -/
def cctpResultAttempts : CctpResult → Nat
  | CctpResult.completed s => s.retryCount
  | CctpResult.failed _ k => k
  | CctpResult.maxRetriesFallback k => k

/-- Transaction ids carried by a `transferUsdcWithCctp` result: the
success object carries `sourceTransactions`; neither failure object has
any transaction-id field. -/
def cctpResultSourceTxs : CctpResult → List String
  | CctpResult.completed s => s.sourceTransactions
  | CctpResult.failed _ _ => []
  | CctpResult.maxRetriesFallback _ => []

/-- Does the string `tx` occur anywhere in the textual fields of a
`transferUsdcWithCctp` result? -/
def cctpResultMentions (r : CctpResult) (tx : String) : Bool :=
  match r with
  | CctpResult.completed s =>
      s.sourceTransactions.contains tx || s.attestationIds.contains tx ||
      s.destinationTransactions.contains tx
  | CctpResult.failed msg _ => strContains msg tx
  | CctpResult.maxRetriesFallback _ => strContains "Max retries reached" tx

/-! ## `tokenTransfer.ts` -/

/-- `AptosTokenTransferRequest` (`types.ts`): destination chain, optional
network environment, transfer amount as a decimal string (the source
defends against a missing value with `?? "0.01"`), optional token address
(`undefined` means the native token). -/
structure TokenTransferRequest where
  targetChain : String
  networkType : Option String
  transferAmount : Option String
  tokenAddress : Option String
deriving DecidableEq, Repr

/-- Outcomes of the remote calls of `tokenTransfer`
(`tokenTransfer.ts` lines 28–169), in program order.  `lookup` feeds the
`checkWrappedTokenExists` call; `wrapOracle` drives the nested
`createAptosWrappedToken` call performed when no wrapped token exists;
`getDecimals` is the per-token decimal lookup; `fetchAtt` the attestation
polls (60 000 ms timeout each). -/
structure TokenTransferOracle where
  initSdk : Except String Unit
  getSourceChain : Except String Unit
  getSourceSigner : Except String Unit
  getDestChain : Except String Unit
  getDestSigner : Except String Unit
  lookup : LookupSteps
  wrapOracle : WrappedTokenOracle
  getDecimals : Except String Nat
  createTransfer : Except String Unit
  quote : Except String Unit
  initiate : Except String (List String)
  fetchAtt : Nat → Except String String
  complete : Except String (List String)

/-- Return value of `tokenTransfer`: the manual-mode success object
`{ isSuccess: true, sourceTransactions, destinationTransactions,
transferId }` (`tokenTransfer.ts` lines 158–163) or the failure object
`{ isSuccess: false, errorMessage }` (lines 165–168), which has no
transaction-id field.  (The automatic-mode return of lines 127–131 is dead
code: `useAutomatic` is the constant `false`.) -/
inductive TokenTransferResult where
  | success (sourceTransactions : List String)
      (destinationTransactions : List String)
      (transferId : Option String) : TokenTransferResult
  | failure (errorMessage : String) : TokenTransferResult
deriving DecidableEq, Repr

/-- `tokenTransfer` (`tokenTransfer.ts` lines 28–169), translated
statement by statement.  The whole body sits in a `try` whose `catch`
returns the failure object, so the model is total.  For a non-native
token the wrapped-token check runs first and, when it finds nothing, the
full `createAptosWrappedToken` flow is invoked (its trace is inlined); a
failed provisioning throws `"Failed to create wrapped token: …"` and the
transfer is never initiated.  The transfer amount is
`amount.parse(transferAmount ?? "0.01", decimals)` at the decimals
looked up per token; the attestation wait is the bounded poll of lines
140–148 (10 attempts, 60 000 ms fetch timeout, 30 000 ms interval). -/
def tokenTransfer (req : TokenTransferRequest) (o : TokenTransferOracle) :
    TokenTransferResult × List Ev :=
  match runSteps
      [(Ev.initSdk, o.initSdk),
       (Ev.getChain "Aptos", o.getSourceChain),
       (Ev.getSigner "Aptos", o.getSourceSigner),
       (Ev.getChain req.targetChain, o.getDestChain),
       (Ev.getSigner req.targetChain, o.getDestSigner)] with
  | (evs, some e) => (TokenTransferResult.failure e, evs)
  | (evs, none) =>
  let pre := evs
  let wrapPart : Option String × List Ev :=
    match req.tokenAddress with
    | none => (none, [])
    | some tokenAddr =>
      match checkWrappedTokenExists o.lookup with
      | some _ => (none, [Ev.lookupWrapped])
      | none =>
        let wrapped := createAptosWrappedToken
          ⟨req.targetChain, tokenAddr, some (req.networkType.getD "Testnet")⟩
          o.wrapOracle
        match wrapped.1 with
        | WrappedTokenResponse.failure msg =>
            (some ("Failed to create wrapped token: " ++ msg),
              Ev.lookupWrapped :: wrapped.2)
        | WrappedTokenResponse.success _ _ _ =>
            (none, Ev.lookupWrapped :: wrapped.2)
  let pre := pre ++ wrapPart.2
  match wrapPart.1 with
  | some wrapErr => (TokenTransferResult.failure wrapErr, pre)
  | none =>
  let amountToTransfer := req.transferAmount.getD "0.01"
  match o.getDecimals with
  | Except.error e => (TokenTransferResult.failure e, pre)
  | Except.ok decimals =>
  match parseBaseUnits amountToTransfer decimals with
  | none =>
      (TokenTransferResult.failure "amount.parse: invalid amount string", pre)
  | some amt =>
  match runSteps
      [(Ev.tokenTransferCreate amt, o.createTransfer),
       (Ev.quoteTransfer, o.quote),
       (Ev.initiateTransfer, exUnit o.initiate)] with
  | (evs2, some e) => (TokenTransferResult.failure e, pre ++ evs2)
  | (evs2, none) =>
  let pre := pre ++ evs2
  let sourceTxIds := exListD o.initiate
  let polled := boundedPoll o.fetchAtt (fun _ => Ev.fetchAttestation 60000)
    30000 10 0
  let pre := pre ++ polled.1
  match polled.2 with
  | none =>
      (TokenTransferResult.failure
        "Attestation not available after maximum polling attempts", pre)
  | some _ =>
  match o.complete with
  | Except.error e => (TokenTransferResult.failure e, pre ++ [Ev.completeTransfer])
  | Except.ok destTxIds =>
      (TokenTransferResult.success sourceTxIds destTxIds sourceTxIds.head?,
        pre ++ [Ev.completeTransfer])

/-- Transaction ids carried by a `tokenTransfer` result: the success
object carries `sourceTransactions`; the failure object has no
transaction-id field. -/
def tokenResultSourceTxs : TokenTransferResult → List String
  | TokenTransferResult.success src _ _ => src
  | TokenTransferResult.failure _ => []

/-! ## Trace observations -/

/-- Is this event a wrapped-asset availability poll? -/
def isPollEv : Ev → Bool
  | Ev.pollWrappedLookup _ => true
  | _ => false

/-- Is this event a `circleTransfer` creation (of any amount)? -/
def isCircleCreateEv : Ev → Bool
  | Ev.circleTransferCreate _ => true
  | _ => false

/-- Is this event a signer resolution or a chain submission (attestation
creation, attestation registration, transfer initiation or completion)? -/
def isSubmitOrSignerEv : Ev → Bool
  | Ev.getSigner _ => true
  | Ev.submitAttestCreateTx => true
  | Ev.submitAttestDest => true
  | Ev.initiateTransfer => true
  | Ev.completeTransfer => true
  | _ => false

/-- The backoff sleeps of a trace, in order, in milliseconds. -/
def sleepsOf (l : List Ev) : List ℚ :=
  l.filterMap fun e =>
    match e with
    | Ev.sleepMs q => some q
    | _ => none

/-! ## Concrete scenarios used in closed statements -/

/-- A CCTP request for 2.5 USDC to Base. -/
def reqBase : CctpRequest := ⟨"Base", "2.5", none⟩

/-- A CCTP request for 1.5 USDC to Base. -/
def reqBase15 : CctpRequest := ⟨"Base", "1.5", none⟩

/-- A fixed `Math.random()` sample of 0.5, making the jitter exactly 1. -/
def halfRand : Nat → ℚ := fun _ => 1 / 2

/-- An attempt in which every remote call resolves. -/
def okAttempt : CctpAttempt :=
  ⟨Except.ok (), Except.ok (), Except.ok (), Except.ok (), Except.ok (),
   Except.ok (), Except.ok (), Except.ok ["srcTx1"], Except.ok ["attId1"],
   Except.ok ["dstTx1"]⟩

/-- An attempt whose first remote call rejects with a transient
(rate-limit) error. -/
def transientFailAttempt : CctpAttempt :=
  { okAttempt with initSdk := Except.error "rate limit" }

/-- An attempt whose first remote call rejects with an error matching no
transient signature. -/
def fatalFailAttempt : CctpAttempt :=
  { okAttempt with initSdk := Except.error "insufficient funds" }

/-- An attempt in which initiation succeeds and the attestation wait then
rejects with a timeout whose message contains the `"timeout"` signature. -/
def attTimeoutAttempt : CctpAttempt :=
  { okAttempt with fetchAtt := Except.error "timeout" }

/-- An attempt in which initiation and attestation succeed and completion
then rejects with an error matching no transient signature. -/
def completeFatalAttempt : CctpAttempt :=
  { okAttempt with complete := Except.error "destination reverted" }

/-- A destination-chain lookup that finds an existing wrapped token. -/
def lookupFound : LookupSteps :=
  ⟨Except.ok (), Except.ok (), Except.ok "0xWrappedAddr"⟩

/-- A destination-chain lookup whose chain-context step rejects with a
network error. -/
def lookupNetDown : LookupSteps :=
  ⟨Except.error "network down", Except.ok (), Except.ok "0xWrappedAddr"⟩

/-- A destination-chain lookup whose wrapped-asset query rejects because
the token is not wrapped. -/
def lookupNotWrapped : LookupSteps :=
  ⟨Except.ok (), Except.ok (), Except.error "not wrapped"⟩

/-- A provisioning oracle in which every remote call resolves and the
initial lookup finds an existing wrapped token. -/
def wrapOracleFound : WrappedTokenOracle :=
  ⟨Except.ok (), Except.ok (), Except.ok (), lookupFound, Except.ok (),
   Except.ok (), Except.ok (), Except.ok (), Except.ok "attestTx1",
   Except.ok ["whMsg1"], Except.ok (some "vaa1"), Except.ok (),
   fun _ => Except.ok "0xWrappedAddr"⟩

/-- A provisioning oracle in which the token is not yet wrapped, every
submission resolves, but the availability poll never finds the asset. -/
def wrapOracleExhaust : WrappedTokenOracle :=
  { wrapOracleFound with
      lookup := lookupNotWrapped,
      poll := fun _ => Except.error "not yet available" }

/-- A wrapped-token provisioning request. -/
def wrapReq : WrappedTokenRequest := ⟨"Base", "0xOriginToken", some "Mainnet"⟩

/-- An attempt in which initiation succeeds and the attestation wait then
rejects with an error matching no transient signature. -/
def attFatalAttempt : CctpAttempt :=
  { okAttempt with fetchAtt := Except.error "guardian set mismatch" }

/-- A token-transfer request for 2.5 units of the native token to Base. -/
def ttReq : TokenTransferRequest := ⟨"Base", none, some "2.5", none⟩

/-- A token-transfer oracle whose first remote call rejects. -/
def ttOracleFail : TokenTransferOracle :=
  ⟨Except.error "boom", Except.ok (), Except.ok (), Except.ok (), Except.ok (),
   lookupFound, wrapOracleFound, Except.ok 6, Except.ok (), Except.ok (),
   Except.ok ["srcTx1"], fun _ => Except.ok "att1", Except.ok ["dstTx1"]⟩

/-! # Lemmas -/

@[simp] theorem countEv_nil (c : Ev) : countEv c [] = 0 := rfl

@[simp] theorem countEv_cons (c e : Ev) (l : List Ev) :
    countEv c (e :: l) = (if e = c then 1 else 0) + countEv c l := rfl

@[simp] theorem countEvP_nil (p : Ev → Bool) : countEvP p [] = 0 := rfl

@[simp] theorem countEvP_cons (p : Ev → Bool) (e : Ev) (l : List Ev) :
    countEvP p (e :: l) = (if p e then 1 else 0) + countEvP p l := rfl

theorem countEv_append (c : Ev) (l₁ l₂ : List Ev) :
    countEv c (l₁ ++ l₂) = countEv c l₁ + countEv c l₂ := by
  induction l₁ with
  | nil => simp
  | cons e l ih => simp [ih]; ring

theorem countEvP_append (p : Ev → Bool) (l₁ l₂ : List Ev) :
    countEvP p (l₁ ++ l₂) = countEvP p l₁ + countEvP p l₂ := by
  induction l₁ with
  | nil => simp
  | cons e l ih => simp [ih]; ring

@[simp] theorem runSteps_nil : runSteps [] = ([], none) := rfl

@[simp] theorem runSteps_cons_error (ev : Ev) (e : String)
    (rest : List (Ev × Except String Unit)) :
    runSteps ((ev, Except.error e) :: rest) = ([ev], some e) := rfl

@[simp] theorem runSteps_cons_ok (ev : Ev) (rest : List (Ev × Except String Unit)) :
    runSteps ((ev, Except.ok ()) :: rest) =
      ((runSteps rest).1.cons ev, (runSteps rest).2) := rfl

/-- The trace of a step sequence never holds more copies of an event than
the full step list does. -/
theorem countEv_runSteps_le (c : Ev) (l : List (Ev × Except String Unit)) :
    countEv c (runSteps l).1 ≤ countEv c (l.map Prod.fst) := by
  induction l with
  | nil => simp
  | cons hd rest ih =>
    obtain ⟨ev, out⟩ := hd
    cases out with
    | error e => simp [runSteps]
    | ok u => cases u; simp [runSteps]; omega

/-- `countEv_runSteps_le` for a Boolean event class. -/
theorem countEvP_runSteps_le (p : Ev → Bool) (l : List (Ev × Except String Unit)) :
    countEvP p (runSteps l).1 ≤ countEvP p (l.map Prod.fst) := by
  induction l with
  | nil => simp
  | cons hd rest ih =>
    obtain ⟨ev, out⟩ := hd
    cases out with
    | error e => simp [runSteps]
    | ok u => cases u; simp [runSteps]; omega

/-- If every step resolves, all steps run and no error is reported. -/
theorem runSteps_all_ok (l : List (Ev × Except String Unit))
    (h : ∀ p ∈ l, p.2 = Except.ok ()) :
    runSteps l = (l.map Prod.fst, none) := by
  induction l with
  | nil => simp
  | cons hd rest ih =>
    obtain ⟨ev, out⟩ := hd
    have hhd : out = Except.ok () := h (ev, out) (by simp)
    subst hhd
    rw [runSteps_cons_ok, ih (fun p hp => h p (by simp [hp]))]
    simp

/-- The trace of an attempt is the trace of its step sequence, whatever
the outcome. -/
theorem runCctpAttempt_fst (tc : String) (a : CctpAttempt) :
    (runCctpAttempt tc a).1 = (runSteps (cctpAttemptSteps tc a)).1 := by
  unfold runCctpAttempt
  rcases hr : runSteps (cctpAttemptSteps tc a) with ⟨evs, e⟩
  cases e <;> simp

/-- An event occurs in an attempt's trace at most as often as in the full
step list of the `try` block. -/
theorem countEv_attempt_le (c : Ev) (tc : String) (a : CctpAttempt) :
    countEv c (runCctpAttempt tc a).1 ≤
      countEv c ((cctpAttemptSteps tc a).map Prod.fst) := by
  rw [runCctpAttempt_fst]
  exact countEv_runSteps_le c (cctpAttemptSteps tc a)

/-- Every attempt performs the SDK initialisation exactly once: it is the
first statement of the `try` block and occurs nowhere else in it. -/
theorem countEv_initSdk_attempt (tc : String) (a : CctpAttempt) :
    countEv Ev.initSdk (runCctpAttempt tc a).1 = 1 := by
  rw [runCctpAttempt_fst]
  cases ha : a.initSdk with
  | error e => simp [cctpAttemptSteps, ha]
  | ok u =>
    cases u
    have hle := countEv_runSteps_le Ev.initSdk
      [(Ev.getChain "Aptos", a.getSourceChain),
       (Ev.getChain tc, a.getDestChain),
       (Ev.getSigner "Aptos", a.getSourceSigner),
       (Ev.getSigner tc, a.getDestSigner),
       (Ev.circleTransferCreate 1000000, a.circleCreate),
       (Ev.quoteTransfer, a.quote),
       (Ev.initiateTransfer, exUnit a.initiate),
       (Ev.fetchAttestation 180000, exUnit a.fetchAtt),
       (Ev.completeTransfer, exUnit a.complete)]
    simp [countEv] at hle
    simp [cctpAttemptSteps, ha]
    omega

/-- No attempt ever sleeps: the backoff sleep lives in the `catch`, not in
the `try` block. -/
theorem countEv_sleep_attempt (d : ℚ) (tc : String) (a : CctpAttempt) :
    countEv (Ev.sleepMs d) (runCctpAttempt tc a).1 = 0 := by
  have h := countEv_attempt_le (Ev.sleepMs d) tc a
  simp [cctpAttemptSteps, countEv] at h
  omega

/-- Loop invariant for `transferUsdcWithCctp`: starting anywhere inside
the `while` guard (`left = maxRetries + 1 - retryCount ≥ 1`), the loop
returns from one of its in-loop `return` statements — never from the
post-loop fallback — and the reported retry counter never exceeds
`maxRetries`. -/
theorem cctpGo_no_fallback_aux (req : CctpRequest) (oracle : Nat → CctpAttempt)
    (rand : Nat → ℚ) (maxRetries : Nat) (iB : ℚ) :
    ∀ left rc, rc + left = maxRetries + 1 → 1 ≤ left →
      (∀ k, (cctpGo req oracle rand maxRetries iB left rc).1 ≠
          CctpResult.maxRetriesFallback k) ∧
      cctpResultAttempts (cctpGo req oracle rand maxRetries iB left rc).1 ≤
        maxRetries := by
  intro left
  induction left with
  | zero => intro rc _ h1; omega
  | succ l ih =>
    intro rc hsum _
    rcases hatt : (runCctpAttempt req.targetChain (oracle rc)).2 with msg | d
    · by_cases hc : maxRetries ≤ rc ∨ isOverloadedError msg = false
      · simp only [cctpGo, hatt]
        rw [if_pos hc]
        refine ⟨fun k => by simp, ?_⟩
        simp [cctpResultAttempts]
        omega
      · have hlt : rc < maxRetries := by
          rcases Nat.lt_or_ge rc maxRetries with h | h
          · exact h
          · exact absurd (Or.inl h) hc
        have hrec := ih (rc + 1) (by omega) (by omega)
        simp only [cctpGo, hatt]
        rw [if_neg hc]
        exact hrec
    · simp only [cctpGo, hatt]
      refine ⟨fun k => by simp, ?_⟩
      simp [cctpResultAttempts]
      omega

/-- When every attempt throws a transient error, the loop walks the retry
counter all the way to `maxRetries`, returns the failure of the final
attempt, and the trace holds one attempt per permitted iteration. -/
theorem cctpGo_all_transient_aux (req : CctpRequest) (oracle : Nat → CctpAttempt)
    (rand : Nat → ℚ) (maxRetries : Nat) (iB : ℚ) (msgs : Nat → String)
    (h : ∀ n, (runCctpAttempt req.targetChain (oracle n)).2 =
        Except.error (msgs n) ∧ isOverloadedError (msgs n) = true) :
    ∀ left rc, rc + left = maxRetries + 1 → 1 ≤ left →
      (cctpGo req oracle rand maxRetries iB left rc).1 =
          CctpResult.failed (msgs maxRetries) maxRetries ∧
      countEv Ev.initSdk (cctpGo req oracle rand maxRetries iB left rc).2 =
        left := by
  intro left
  induction left with
  | zero => intro rc _ h1; omega
  | succ l ih =>
    intro rc hsum _
    obtain ⟨herr, htrans⟩ := h rc
    by_cases hl : 1 ≤ l
    · have hlt : rc < maxRetries := by omega
      have hc : ¬ (maxRetries ≤ rc ∨ isOverloadedError (msgs rc) = false) := by
        rintro (h1 | h2)
        · omega
        · rw [htrans] at h2; cases h2
      have hrec := ih (rc + 1) (by omega) hl
      simp only [cctpGo, herr]
      rw [if_neg hc]
      refine ⟨hrec.1, ?_⟩
      simp [countEv_append, countEv_initSdk_attempt, hrec.2]
      omega
    · have hrc : rc = maxRetries := by omega
      have hc : maxRetries ≤ rc ∨ isOverloadedError (msgs rc) = false :=
        Or.inl (by omega)
      simp only [cctpGo, herr]
      rw [if_pos hc]
      subst hrc
      refine ⟨rfl, ?_⟩
      have : l = 0 := by omega
      subst this
      simp [countEv_initSdk_attempt]

/-- The bounded poll performs at most `left` lookups. -/
theorem boundedPoll_count_le (lookup : Nat → Except String String)
    (mkEv : Nat → Ev) (iv : ℚ) (p : Ev → Bool)
    (hs : p (Ev.sleepMs iv) = false) :
    ∀ left cnt, countEvP p (boundedPoll lookup mkEv iv left cnt).1 ≤ left := by
  intro left
  induction left with
  | zero => intro cnt; simp [boundedPoll]
  | succ l ih =>
    intro cnt
    rcases hl : lookup cnt with e | a
    · have := ih (cnt + 1)
      simp only [boundedPoll, hl]
      simp [hs]
      split_ifs <;> omega
    · simp only [boundedPoll, hl]
      simp
      split_ifs <;> omega

/-- When every lookup rejects, the bounded poll performs exactly one
lookup and one interval sleep per permitted iteration and reports no
artifact. -/
theorem boundedPoll_all_fail (lookup : Nat → Except String String)
    (mkEv : Nat → Ev) (iv : ℚ)
    (hall : ∀ n, ∃ e, lookup n = Except.error e)
    (p : Ev → Bool) (hp : ∀ n, p (mkEv n) = true)
    (hs : p (Ev.sleepMs iv) = false)
    (hm : ∀ n, mkEv n ≠ Ev.sleepMs iv) :
    ∀ left cnt, (boundedPoll lookup mkEv iv left cnt).2 = none ∧
      countEvP p (boundedPoll lookup mkEv iv left cnt).1 = left ∧
      countEv (Ev.sleepMs iv) (boundedPoll lookup mkEv iv left cnt).1 = left := by
  intro left
  induction left with
  | zero => intro cnt; simp [boundedPoll]
  | succ l ih =>
    intro cnt
    obtain ⟨e, he⟩ := hall cnt
    obtain ⟨ih1, ih2, ih3⟩ := ih (cnt + 1)
    simp only [boundedPoll, he]
    refine ⟨ih1, ?_, ?_⟩
    · simp [hp, hs, ih2]; omega
    · simp [hm, ih3]; omega

/-- Whatever the oracle does, a provisioning call performs at most 10
wrapped-asset availability polls: only the bounded poll loop emits them,
and it is capped at `maxPollingAttempts = 10`. -/
theorem createWrapped_poll_le (req : WrappedTokenRequest) (o : WrappedTokenOracle) :
    countEvP isPollEv (createAptosWrappedToken req o).2 ≤ 10 := by
  have hpoll := boundedPoll_count_le o.poll Ev.pollWrappedLookup 2000 isPollEv rfl 10 0
  have hsteps := countEvP_runSteps_le isPollEv
      [(Ev.getSigner req.targetChain, o.getDestSigner),
       (Ev.getSigner "Aptos", o.getOriginSigner),
       (Ev.getTokenBridge req.targetChain, o.getTokenBridgeDest),
       (Ev.getTokenBridge "Aptos", o.getTokenBridgeOrigin)]
  unfold createAptosWrappedToken
  rcases o.initSdk with e | ⟨⟩
  · simp [isPollEv]
  rcases o.getOriginChain with e | ⟨⟩
  · simp [isPollEv]
  rcases o.getDestChain with e | ⟨⟩
  · simp [isPollEv]
  rcases checkWrappedTokenExists o.lookup with _ | addr
  case some => simp [isPollEv]
  rcases hrs : runSteps
      [(Ev.getSigner req.targetChain, o.getDestSigner),
       (Ev.getSigner "Aptos", o.getOriginSigner),
       (Ev.getTokenBridge req.targetChain, o.getTokenBridgeDest),
       (Ev.getTokenBridge "Aptos", o.getTokenBridgeOrigin)] with ⟨evs, e2⟩
  rw [hrs] at hsteps
  simp [countEvP, isPollEv] at hsteps
  rcases e2 with _ | e
  case some =>
    simp [countEvP_append, countEvP, isPollEv]
    omega
  rcases o.signSendAttest with e | txid
  · simp [countEvP_append, countEvP, isPollEv]; omega
  rcases o.parseTx with e | msgs
  · simp [countEvP_append, countEvP, isPollEv]; omega
  cases hme : msgs.isEmpty
  case true => simp [hme, countEvP_append, countEvP, isPollEv]; omega
  rcases o.getVaa with e | v
  · simp [hme, countEvP_append, countEvP, isPollEv]; omega
  rcases v with _ | vaa
  case none => simp [hme, countEvP_append, countEvP, isPollEv]; omega
  rcases o.submitAttestDest with e | ⟨⟩
  · simp [hme, countEvP_append, countEvP, isPollEv]; omega
  rcases hbp : boundedPoll o.poll Ev.pollWrappedLookup 2000 10 0 with ⟨pevs, r⟩
  rw [hbp] at hpoll
  simp only at hpoll
  rcases r with _ | asset <;>
    · simp [hme, countEvP_append, countEvP, isPollEv]
      omega

/-- `ratMin` is monotone in its first argument. -/
theorem ratMin_le_ratMin {a b c : ℚ} (h : a ≤ b) :
    ratMin a c ≤ ratMin b c := by
  unfold ratMin
  split_ifs <;> linarith

/-! # Claims -/

/-- **C1.** The claim says the base-unit amount handed to the
transfer-creation call equals `transferAmount` parsed at 6 decimals, so
different `transferAmount`s give different base-unit amounts.  The code
instead hard-codes `const amt = 1_000_000n` (`cctp.ts` line 80), directly
under the comment "Parse USDC amount with 6 decimal precision": the runs
for `transferAmount = "2.5"` and `"1.5"` both hand exactly 1 000 000 base
units to `circleTransfer`, while the 6-decimal parses are 2 500 000 and
1 500 000. -/
theorem claim1_hardcoded_transfer_amount :
    countEv (Ev.circleTransferCreate 1000000)
      (transferUsdcWithCctp reqBase (fun _ => okAttempt) halfRand 5 2000).2 = 1 ∧
    countEvP isCircleCreateEv
      (transferUsdcWithCctp reqBase (fun _ => okAttempt) halfRand 5 2000).2 = 1 ∧
    countEv (Ev.circleTransferCreate 1000000)
      (transferUsdcWithCctp reqBase15 (fun _ => okAttempt) halfRand 5 2000).2 = 1 ∧
    countEvP isCircleCreateEv
      (transferUsdcWithCctp reqBase15 (fun _ => okAttempt) halfRand 5 2000).2 = 1 ∧
    parseBaseUnits reqBase.transferAmount 6 = some 2500000 ∧
    parseBaseUnits reqBase15.transferAmount 6 = some 1500000 ∧
    2500000 ≠ 1000000 ∧ 1500000 ≠ 1000000 := by
  decide

/-- **C2.** When the destination-chain lookup finds an existing wrapped
representation, the provisioning call returns success with exactly the
looked-up address and no attestation hash; its whole trace is SDK init,
the two chain contexts and the lookup — no signer resolution and no chain
submission of any kind, and nothing precedes the lookup except that
environment setup. -/
theorem claim2_idempotent_short_circuit (req : WrappedTokenRequest)
    (o : WrappedTokenOracle) (addr : String)
    (h1 : o.initSdk = Except.ok ()) (h2 : o.getOriginChain = Except.ok ())
    (h3 : o.getDestChain = Except.ok ())
    (h4 : checkWrappedTokenExists o.lookup = some addr) :
    createAptosWrappedToken req o =
      (WrappedTokenResponse.success req.targetChain addr none,
        [Ev.initSdk, Ev.getChain "Aptos", Ev.getChain req.targetChain,
          Ev.lookupWrapped]) ∧
    countEvP isSubmitOrSignerEv (createAptosWrappedToken req o).2 = 0 := by
  have hmain : createAptosWrappedToken req o =
      (WrappedTokenResponse.success req.targetChain addr none,
        [Ev.initSdk, Ev.getChain "Aptos", Ev.getChain req.targetChain,
          Ev.lookupWrapped]) := by
    simp [createAptosWrappedToken, h1, h2, h3, h4]
  refine ⟨hmain, ?_⟩
  rw [hmain]
  simp [countEvP, isSubmitOrSignerEv]

/-- Witness for **C2**: a concrete oracle whose lookup finds
`"0xWrappedAddr"`. -/
theorem claim2_witness :
    createAptosWrappedToken wrapReq wrapOracleFound =
      (WrappedTokenResponse.success "Base" "0xWrappedAddr" none,
        [Ev.initSdk, Ev.getChain "Aptos", Ev.getChain "Base",
          Ev.lookupWrapped]) ∧
    countEvP isSubmitOrSignerEv
      (createAptosWrappedToken wrapReq wrapOracleFound).2 = 0 :=
  claim2_idempotent_short_circuit wrapReq wrapOracleFound "0xWrappedAddr"
    rfl rfl rfl rfl

/-- **C3 counterexample.** The claim says an attestation-wait timeout after
a successful initiation is terminal and the initiation is never
re-submitted within the call.  But the `catch` of `transferUsdcWithCctp`
wraps the whole `try` block and classifies any message containing
`"timeout"` as transient: with every attempt initiating successfully
(`initiateTransfer` resolves) and `fetchAttestation` then rejecting with
`"timeout"`, the run retries five times — submitting the source-chain
initiation 6 times in total — before failing. -/
theorem claim3_counterexample :
    (transferUsdcWithCctp reqBase (fun _ => attTimeoutAttempt) halfRand 5
        2000).1 = CctpResult.failed "timeout" 5 ∧
    countEv Ev.initiateTransfer
      (transferUsdcWithCctp reqBase (fun _ => attTimeoutAttempt) halfRand 5
        2000).2 = 6 := by
  decide

/-- **C3 amended.** If the attestation wait rejects (after a successful
initiation) with a message matching none of the transient signatures, the
run terminates immediately as a failure with `retryAttempts = 0`, having
submitted the initiation exactly once and slept never; a timeout whose
message matches a transient signature is instead retried wholesale,
re-submitting the initiation (see the counterexample). -/
theorem claim3_amended (req : CctpRequest) (oracle : Nat → CctpAttempt)
    (rand : Nat → ℚ) (maxRetries : Nat) (iB : ℚ) (txs : List String)
    (msg : String)
    (h1 : (oracle 0).initSdk = Except.ok ())
    (h2 : (oracle 0).getSourceChain = Except.ok ())
    (h3 : (oracle 0).getDestChain = Except.ok ())
    (h4 : (oracle 0).getSourceSigner = Except.ok ())
    (h5 : (oracle 0).getDestSigner = Except.ok ())
    (h6 : (oracle 0).circleCreate = Except.ok ())
    (h7 : (oracle 0).quote = Except.ok ())
    (h8 : (oracle 0).initiate = Except.ok txs)
    (h9 : (oracle 0).fetchAtt = Except.error msg)
    (hfatal : isOverloadedError msg = false) :
    (transferUsdcWithCctp req oracle rand maxRetries iB).1 =
        CctpResult.failed msg 0 ∧
    countEv Ev.initiateTransfer
      (transferUsdcWithCctp req oracle rand maxRetries iB).2 = 1 ∧
    (∀ d, countEv (Ev.sleepMs d)
      (transferUsdcWithCctp req oracle rand maxRetries iB).2 = 0) := by
  have hatt : runCctpAttempt req.targetChain (oracle 0) =
      ([Ev.initSdk, Ev.getChain "Aptos", Ev.getChain req.targetChain,
        Ev.getSigner "Aptos", Ev.getSigner req.targetChain,
        Ev.circleTransferCreate 1000000, Ev.quoteTransfer,
        Ev.initiateTransfer, Ev.fetchAttestation 180000],
        Except.error msg) := by
    simp [runCctpAttempt, cctpAttemptSteps, runSteps, h1, h2, h3, h4, h5,
      h6, h7, h8, h9, exUnit]
  have hmain : transferUsdcWithCctp req oracle rand maxRetries iB =
      (CctpResult.failed msg 0,
        [Ev.initSdk, Ev.getChain "Aptos", Ev.getChain req.targetChain,
          Ev.getSigner "Aptos", Ev.getSigner req.targetChain,
          Ev.circleTransferCreate 1000000, Ev.quoteTransfer,
          Ev.initiateTransfer, Ev.fetchAttestation 180000]) := by
    unfold transferUsdcWithCctp
    simp only [cctpGo, hatt]
    rw [if_pos (Or.inr hfatal)]
  refine ⟨by rw [hmain], by rw [hmain]; simp [countEv], ?_⟩
  intro d
  rw [hmain]
  simp [countEv]

/-- Witness for the amended **C3**: a concrete run whose attestation wait
rejects with `"guardian set mismatch"` — not a transient signature — after
a successful initiation. -/
theorem claim3_amended_witness :
    (transferUsdcWithCctp reqBase (fun _ => attFatalAttempt) halfRand 5
        2000).1 = CctpResult.failed "guardian set mismatch" 0 ∧
    countEv Ev.initiateTransfer
      (transferUsdcWithCctp reqBase (fun _ => attFatalAttempt) halfRand 5
        2000).2 = 1 ∧
    countEv (Ev.sleepMs 4000)
      (transferUsdcWithCctp reqBase (fun _ => attFatalAttempt) halfRand 5
        2000).2 = 0 := by
  have h := claim3_amended reqBase (fun _ => attFatalAttempt) halfRand 5 2000
    ["srcTx1"] "guardian set mismatch" rfl rfl rfl rfl rfl rfl rfl rfl rfl
    (by decide)
  exact ⟨h.1, h.2.1, h.2.2 4000⟩

/-- **C4 counterexample.** The claim says a failure result produced after
initiation succeeded carries the last known source transaction id.  In the
code both failure shapes carry only `errorMessage` and `retryAttempts`:
in this run initiation succeeds (producing `"srcTx1"`) and completion then
rejects fatally, yet the returned failure carries no transaction list and
never mentions `"srcTx1"`. -/
theorem claim4_counterexample :
    (transferUsdcWithCctp reqBase (fun _ => completeFatalAttempt) halfRand 5
        2000).1 = CctpResult.failed "destination reverted" 0 ∧
    countEv Ev.initiateTransfer
      (transferUsdcWithCctp reqBase (fun _ => completeFatalAttempt) halfRand
        5 2000).2 = 1 ∧
    cctpResultSourceTxs
      (transferUsdcWithCctp reqBase (fun _ => completeFatalAttempt) halfRand
        5 2000).1 = [] ∧
    cctpResultMentions
      (transferUsdcWithCctp reqBase (fun _ => completeFatalAttempt) halfRand
        5 2000).1 "srcTx1" = false := by
  decide

/-- **C4 amended.** A terminal failure carries `errorMessage` and
`retryAttempts` (CCTP) or `errorMessage` alone (token transfer) but no
transaction identifier: even a run whose initiation succeeded before a
fatal completion failure returns a failure with an empty transaction list
(the produced source transaction survives only in the trace). -/
theorem claim4_amended :
    (∀ (req : CctpRequest) (oracle : Nat → CctpAttempt) (rand : Nat → ℚ)
        (maxRetries : Nat) (iB : ℚ) (txs atts : List String) (msg : String),
      (oracle 0).initSdk = Except.ok () →
      (oracle 0).getSourceChain = Except.ok () →
      (oracle 0).getDestChain = Except.ok () →
      (oracle 0).getSourceSigner = Except.ok () →
      (oracle 0).getDestSigner = Except.ok () →
      (oracle 0).circleCreate = Except.ok () →
      (oracle 0).quote = Except.ok () →
      (oracle 0).initiate = Except.ok txs →
      (oracle 0).fetchAtt = Except.ok atts →
      (oracle 0).complete = Except.error msg →
      isOverloadedError msg = false →
      (transferUsdcWithCctp req oracle rand maxRetries iB).1 =
          CctpResult.failed msg 0 ∧
      countEv Ev.initiateTransfer
        (transferUsdcWithCctp req oracle rand maxRetries iB).2 = 1 ∧
      cctpResultSourceTxs
        (transferUsdcWithCctp req oracle rand maxRetries iB).1 = []) ∧
    (∀ (req : TokenTransferRequest) (o : TokenTransferOracle) (msg : String),
      (tokenTransfer req o).1 = TokenTransferResult.failure msg →
      tokenResultSourceTxs (tokenTransfer req o).1 = []) := by
  constructor
  · intro req oracle rand maxRetries iB txs atts msg h1 h2 h3 h4 h5 h6 h7 h8
      h9 h10 hfatal
    have hatt : runCctpAttempt req.targetChain (oracle 0) =
        ([Ev.initSdk, Ev.getChain "Aptos", Ev.getChain req.targetChain,
          Ev.getSigner "Aptos", Ev.getSigner req.targetChain,
          Ev.circleTransferCreate 1000000, Ev.quoteTransfer,
          Ev.initiateTransfer, Ev.fetchAttestation 180000,
          Ev.completeTransfer], Except.error msg) := by
      simp [runCctpAttempt, cctpAttemptSteps, runSteps, h1, h2, h3, h4, h5,
        h6, h7, h8, h9, h10, exUnit]
    have hmain : transferUsdcWithCctp req oracle rand maxRetries iB =
        (CctpResult.failed msg 0,
          [Ev.initSdk, Ev.getChain "Aptos", Ev.getChain req.targetChain,
            Ev.getSigner "Aptos", Ev.getSigner req.targetChain,
            Ev.circleTransferCreate 1000000, Ev.quoteTransfer,
            Ev.initiateTransfer, Ev.fetchAttestation 180000,
            Ev.completeTransfer]) := by
      unfold transferUsdcWithCctp
      simp only [cctpGo, hatt]
      rw [if_pos (Or.inr hfatal)]
    refine ⟨by rw [hmain], by rw [hmain]; simp [countEv], ?_⟩
    rw [hmain]
    rfl
  · intro req o msg h
    rw [h]
    rfl

/-- Witness for the amended **C4**: a concrete run with a successful
initiation and a fatal completion failure, and a concrete failing token
transfer. -/
theorem claim4_amended_witness :
    (transferUsdcWithCctp reqBase (fun _ => completeFatalAttempt) halfRand 7
        3000).1 = CctpResult.failed "destination reverted" 0 ∧
    cctpResultSourceTxs
      (transferUsdcWithCctp reqBase (fun _ => completeFatalAttempt) halfRand
        7 3000).1 = [] ∧
    tokenResultSourceTxs (tokenTransfer ttReq ttOracleFail).1 = [] := by
  have h := claim4_amended.1 reqBase (fun _ => completeFatalAttempt) halfRand
    7 3000 ["srcTx1"] ["attId1"] "destination reverted" rfl rfl rfl rfl rfl
    rfl rfl rfl rfl rfl (by decide)
  exact ⟨h.1, h.2.2, claim4_amended.2 ttReq ttOracleFail "boom" (by decide)⟩

/-- **C5.** With the default `maxRetries = 5` and `initialBackoff = 2000`,
when every attempt throws a transient (overload/timeout/rate-limit/
connection) error, the orchestrator performs exactly `maxRetries + 1 = 6`
attempts — counted by the once-per-attempt SDK initialisation — and
returns the failure object with `retryAttempts = maxRetries = 5`. -/
theorem claim5_retry_exhaustion (req : CctpRequest)
    (oracle : Nat → CctpAttempt) (rand : Nat → ℚ) (msgs : Nat → String)
    (h : ∀ n, (runCctpAttempt req.targetChain (oracle n)).2 =
        Except.error (msgs n) ∧ isOverloadedError (msgs n) = true) :
    (transferUsdcWithCctp req oracle rand 5 2000).1 =
        CctpResult.failed (msgs 5) 5 ∧
    countEv Ev.initSdk (transferUsdcWithCctp req oracle rand 5 2000).2 = 6 := by
  have := cctpGo_all_transient_aux req oracle rand 5 2000 msgs h 6 0
    (by omega) (by omega)
  exact this

/-- Witness for **C5**: every attempt rejects with `"rate limit"`. -/
theorem claim5_witness :
    (transferUsdcWithCctp reqBase (fun _ => transientFailAttempt) halfRand 5
        2000).1 = CctpResult.failed "rate limit" 5 ∧
    countEv Ev.initSdk
      (transferUsdcWithCctp reqBase (fun _ => transientFailAttempt) halfRand
        5 2000).2 = 6 :=
  claim5_retry_exhaustion reqBase (fun _ => transientFailAttempt) halfRand
    (fun _ => "rate limit")
    (fun _ => ⟨rfl, (by decide : isOverloadedError "rate limit" = true)⟩)

/-- **C6.** When the first attempt throws an error matching none of the
transient signatures, the run returns the failure object immediately with
`retryAttempts = 0`: the trace is exactly the first attempt's trace, with
one SDK initialisation and no backoff sleep of any duration. -/
theorem claim6_fatal_short_circuit (req : CctpRequest)
    (oracle : Nat → CctpAttempt) (rand : Nat → ℚ) (maxRetries : Nat)
    (iB : ℚ) (msg : String)
    (herr : (runCctpAttempt req.targetChain (oracle 0)).2 = Except.error msg)
    (hfatal : isOverloadedError msg = false) :
    transferUsdcWithCctp req oracle rand maxRetries iB =
      (CctpResult.failed msg 0, (runCctpAttempt req.targetChain (oracle 0)).1) ∧
    countEv Ev.initSdk
      (transferUsdcWithCctp req oracle rand maxRetries iB).2 = 1 ∧
    (∀ d, countEv (Ev.sleepMs d)
      (transferUsdcWithCctp req oracle rand maxRetries iB).2 = 0) := by
  have hmain : transferUsdcWithCctp req oracle rand maxRetries iB =
      (CctpResult.failed msg 0,
        (runCctpAttempt req.targetChain (oracle 0)).1) := by
    unfold transferUsdcWithCctp
    simp only [cctpGo, herr]
    rw [if_pos (Or.inr hfatal)]
  refine ⟨hmain, ?_, ?_⟩
  · rw [hmain]
    exact countEv_initSdk_attempt req.targetChain (oracle 0)
  · intro d
    rw [hmain]
    exact countEv_sleep_attempt d req.targetChain (oracle 0)

/-- Witness for **C6**: the first attempt rejects with
`"insufficient funds"`, which matches no transient signature. -/
theorem claim6_witness :
    transferUsdcWithCctp reqBase (fun _ => fatalFailAttempt) halfRand 5 2000 =
      (CctpResult.failed "insufficient funds" 0, [Ev.initSdk]) ∧
    countEv Ev.initSdk
      (transferUsdcWithCctp reqBase (fun _ => fatalFailAttempt) halfRand 5
        2000).2 = 1 ∧
    countEv (Ev.sleepMs 4000)
      (transferUsdcWithCctp reqBase (fun _ => fatalFailAttempt) halfRand 5
        2000).2 = 0 := by
  have h := claim6_fatal_short_circuit reqBase (fun _ => fatalFailAttempt)
    halfRand 5 2000 "insufficient funds" rfl (by decide)
  exact ⟨h.1, h.2.1, h.2.2 4000⟩

/-- **C7 counterexample.** The claim puts the delay before the retry that
follows attempt `n` in `[initialDelay * 2 ^ n * 0.85,
min(initialDelay * 2 ^ n * 1.15, 60000)]`.  But `retryCount++` runs before
the backoff computation (`cctp.ts` lines 169–171), so that delay uses
exponent `n + 1`: with `initialDelay = 2000` and jitter sample 0.5 (jitter
exactly 1), the delay following attempt 0 is 4000 ms — outside the claimed
interval `[1700, 2300]` for `n = 0`.  The full sleep sequence also shows
the 60 000 ms cap (the uncapped fifth delay would be 64 000). -/
theorem claim7_counterexample :
    cctpBackoff 2000 1 (1 / 2) = 4000 ∧
    sleepsOf (transferUsdcWithCctp reqBase (fun _ => attTimeoutAttempt)
      halfRand 5 2000).2 = [4000, 8000, 16000, 32000, 60000] ∧
    ¬((1700 : ℚ) ≤ 4000 ∧ (4000 : ℚ) ≤ ratMin 2300 60000) := by
  have hb1 : cctpBackoff 2000 1 (1 / 2) = 4000 := by
    simp only [cctpBackoff, ratMin]
    norm_num
  have hb2 : cctpBackoff 2000 2 (1 / 2) = 8000 := by
    simp only [cctpBackoff, ratMin]
    norm_num
  have hb3 : cctpBackoff 2000 3 (1 / 2) = 16000 := by
    simp only [cctpBackoff, ratMin]
    norm_num
  have hb4 : cctpBackoff 2000 4 (1 / 2) = 32000 := by
    simp only [cctpBackoff, ratMin]
    norm_num
  have hb5 : cctpBackoff 2000 5 (1 / 2) = 60000 := by
    simp only [cctpBackoff, ratMin]
    norm_num
  have htr : isOverloadedError "timeout" = true := by decide
  refine ⟨hb1, ?_, ?_⟩
  · simp [transferUsdcWithCctp, cctpGo, runCctpAttempt, cctpAttemptSteps,
      runSteps, attTimeoutAttempt, okAttempt, reqBase, halfRand, exUnit,
      sleepsOf, htr, hb1, hb2, hb3, hb4, hb5]
    norm_num [cctpBackoff, ratMin]
  · simp only [ratMin]
    norm_num

/-- **C7 amended.** For attempt `n` (0-based), `initialDelay > 0` and a
jitter sample `r ∈ [0, 1)`, the delay computed before the following retry
is `cctpBackoff initialDelay (n+1) r` and lies within
`[min(initialDelay * 2 ^ (n+1) * 0.85, 60000),
min(initialDelay * 2 ^ (n+1) * 1.15, 60000)]`: the exponent is `n + 1`
because the counter is incremented first, and the lower bound is also
clipped by the 60-second cap. -/
theorem claim7_amended (iB : ℚ) (n : Nat) (r : ℚ)
    (hiB : 0 < iB) (hr0 : 0 ≤ r) (hr1 : r < 1) :
    ratMin (iB * 2 ^ (n + 1) * (17 / 20)) 60000 ≤ cctpBackoff iB (n + 1) r ∧
    cctpBackoff iB (n + 1) r ≤
      ratMin (iB * 2 ^ (n + 1) * (23 / 20)) 60000 := by
  have hx : (0 : ℚ) ≤ iB * 2 ^ (n + 1) := by positivity
  have hj1 : (17 : ℚ) / 20 ≤ r * (3 / 10) + 17 / 20 := by nlinarith
  have hj2 : r * (3 / 10) + 17 / 20 ≤ 23 / 20 := by nlinarith
  unfold cctpBackoff
  constructor
  · exact ratMin_le_ratMin (mul_le_mul_of_nonneg_left hj1 hx)
  · exact ratMin_le_ratMin (mul_le_mul_of_nonneg_left hj2 hx)

/-- Witness for the amended **C7**: `initialDelay = 2000`, attempt 0,
jitter sample 0.5. -/
theorem claim7_amended_witness :
    ratMin ((2000 : ℚ) * 2 ^ (0 + 1) * (17 / 20)) 60000 ≤
        cctpBackoff 2000 (0 + 1) (1 / 2) ∧
    cctpBackoff 2000 (0 + 1) (1 / 2) ≤
      ratMin ((2000 : ℚ) * 2 ^ (0 + 1) * (23 / 20)) 60000 :=
  claim7_amended 2000 0 (1 / 2) (by norm_num) (by norm_num) (by norm_num)

/-- **C8.** The availability poll of the provisioning flow performs at
most 10 lookups on every run whatsoever; and on a run that reaches the
poll with every lookup rejecting, the lookups are exactly 10, each
followed by the fixed 2000 ms sleep (the rejection is swallowed, not fed
to the transient/fatal classifier), and the flow fails with the
exhaustion message. -/
theorem claim8_bounded_poll (req : WrappedTokenRequest)
    (o : WrappedTokenOracle) (tx : String) (msgs : List String) (vaa : String)
    (h1 : o.initSdk = Except.ok ()) (h2 : o.getOriginChain = Except.ok ())
    (h3 : o.getDestChain = Except.ok ())
    (h4 : checkWrappedTokenExists o.lookup = none)
    (h5 : o.getDestSigner = Except.ok ())
    (h6 : o.getOriginSigner = Except.ok ())
    (h7 : o.getTokenBridgeDest = Except.ok ())
    (h8 : o.getTokenBridgeOrigin = Except.ok ())
    (h9 : o.signSendAttest = Except.ok tx) (h10 : o.parseTx = Except.ok msgs)
    (h11 : msgs.isEmpty = false) (h12 : o.getVaa = Except.ok (some vaa))
    (h13 : o.submitAttestDest = Except.ok ())
    (hall : ∀ n, ∃ e, o.poll n = Except.error e) :
    (∀ (req2 : WrappedTokenRequest) (o2 : WrappedTokenOracle),
        countEvP isPollEv (createAptosWrappedToken req2 o2).2 ≤ 10) ∧
    (createAptosWrappedToken req o).1 =
        WrappedTokenResponse.failure
          "Wrapped asset not available after maximum polling attempts" ∧
    countEvP isPollEv (createAptosWrappedToken req o).2 = 10 ∧
    countEv (Ev.sleepMs 2000) (createAptosWrappedToken req o).2 = 10 := by
  refine ⟨fun req2 o2 => createWrapped_poll_le req2 o2, ?_⟩
  obtain ⟨hnone, hcnt, hslp⟩ := boundedPoll_all_fail o.poll
    Ev.pollWrappedLookup 2000 hall isPollEv (fun _ => rfl) rfl
    (fun _ => by simp) 10 0
  have hcreate : createAptosWrappedToken req o =
      (WrappedTokenResponse.failure
        "Wrapped asset not available after maximum polling attempts",
        ([Ev.initSdk, Ev.getChain "Aptos", Ev.getChain req.targetChain,
          Ev.lookupWrapped, Ev.getSigner req.targetChain,
          Ev.getSigner "Aptos", Ev.getTokenBridge req.targetChain,
          Ev.getTokenBridge "Aptos", Ev.submitAttestCreateTx, Ev.parseTx,
          Ev.getVaa 1500000, Ev.submitAttestDest] ++
          (boundedPoll o.poll Ev.pollWrappedLookup 2000 10 0).1)) := by
    simp [createAptosWrappedToken, h1, h2, h3, h4, h5, h6, h7, h8, h9, h10,
      h11, h12, h13, runSteps, hnone]
  rw [hcreate]
  refine ⟨rfl, ?_, ?_⟩
  · simp [countEvP_append, countEvP, isPollEv, hcnt]
  · simp [countEv_append, countEv, hslp]

/-- Witness for **C8**: a concrete oracle reaching the poll with every
lookup rejecting (`wrapOracleExhaust`), plus the general bound applied to
the lookup-found oracle. -/
theorem claim8_witness :
    (createAptosWrappedToken wrapReq wrapOracleExhaust).1 =
        WrappedTokenResponse.failure
          "Wrapped asset not available after maximum polling attempts" ∧
    countEvP isPollEv
      (createAptosWrappedToken wrapReq wrapOracleExhaust).2 = 10 ∧
    countEv (Ev.sleepMs 2000)
      (createAptosWrappedToken wrapReq wrapOracleExhaust).2 = 10 ∧
    countEvP isPollEv
      (createAptosWrappedToken wrapReq wrapOracleFound).2 ≤ 10 := by
  have h := claim8_bounded_poll wrapReq wrapOracleExhaust "attestTx1"
    ["whMsg1"] "vaa1" rfl rfl rfl rfl rfl rfl rfl rfl rfl rfl rfl rfl rfl
    (fun _ => ⟨"not yet available", rfl⟩)
  exact ⟨h.2.1, h.2.2.1, h.2.2.2, h.1 wrapReq wrapOracleFound⟩

/-- **C9.** `checkWrappedTokenExists` is total over lookup outcomes: a
rejection of any of its three awaited steps — chain context, token bridge
or wrapped-asset query — yields `null`, so `null` conflates "not wrapped"
with "lookup failed"; and a non-`null` return arises only when every step
resolved, with the resolved address.  (No exception escapes: the model's
return type is an `Option`, mirroring the catch-all `try`.) -/
theorem claim9_lookup_total (s : LookupSteps) :
    (((∃ e, s.getChain = Except.error e) ∨
      (∃ e, s.getTokenBridge = Except.error e) ∨
      (∃ e, s.getWrappedAsset = Except.error e)) →
        checkWrappedTokenExists s = none) ∧
    (∀ a, checkWrappedTokenExists s = some a →
      s.getChain = Except.ok () ∧ s.getTokenBridge = Except.ok () ∧
        s.getWrappedAsset = Except.ok a) := by
  obtain ⟨c, b, w⟩ := s
  rcases c with e1 | ⟨⟩ <;> rcases b with e2 | ⟨⟩ <;> rcases w with e3 | a0 <;>
    simp [checkWrappedTokenExists]

/-- Witness for **C9**: a network failure and a not-wrapped rejection both
yield `null` (indistinguishable), and a found lookup returns the resolved
address. -/
theorem claim9_witness :
    checkWrappedTokenExists lookupNetDown = none ∧
    checkWrappedTokenExists lookupNotWrapped = none ∧
    lookupFound.getWrappedAsset = Except.ok "0xWrappedAddr" := by
  refine ⟨(claim9_lookup_total lookupNetDown).1 (Or.inl ⟨"network down", rfl⟩),
    (claim9_lookup_total lookupNotWrapped).1
      (Or.inr (Or.inr ⟨"not wrapped", rfl⟩)),
    ((claim9_lookup_total lookupFound).2 "0xWrappedAddr" rfl).2.2⟩

/-- **C10.** For every request, oracle, jitter source, `maxRetries`
(a natural number: the claim's `maxRetries ≥ 0`) and backoff base, the
retry counter reported by the result never exceeds `maxRetries` and the
result comes from a `return` inside the loop: the post-loop
`"Max retries reached"` fallback is unreachable.  The model returns a
plain result for every oracle — the `catch` wraps the whole body, so no
error propagates. -/
theorem claim10_loop_always_returns (req : CctpRequest)
    (oracle : Nat → CctpAttempt) (rand : Nat → ℚ) (maxRetries : Nat)
    (iB : ℚ) :
    (∀ k, (transferUsdcWithCctp req oracle rand maxRetries iB).1 ≠
        CctpResult.maxRetriesFallback k) ∧
    cctpResultAttempts
      (transferUsdcWithCctp req oracle rand maxRetries iB).1 ≤ maxRetries :=
  cctpGo_no_fallback_aux req oracle rand maxRetries iB (maxRetries + 1) 0
    (by omega) (by omega)

/-- Witness for **C10**: the exhausting run reports `retryAttempts = 5 ≤ 5`
and is not the fallback. -/
theorem claim10_witness :
    (transferUsdcWithCctp reqBase (fun _ => transientFailAttempt) halfRand 5
        2000).1 ≠ CctpResult.maxRetriesFallback 5 ∧
    cctpResultAttempts
      (transferUsdcWithCctp reqBase (fun _ => transientFailAttempt) halfRand
        5 2000).1 ≤ 5 := by
  have h := claim10_loop_always_returns reqBase (fun _ => transientFailAttempt)
    halfRand 5 2000
  exact ⟨h.1 5, h.2⟩

end MoveAgentKit
